import Mathlib

/-!
# Verification of the kephasnet session and dispatch engine

Shallow embedding of the Go sources of `luciancaetano/kephasnet`:
the frame codec (`internal/protocol`), the connection session
(`internal/websocket` Client), and the server dispatch paths
(`internal/websocket` Server), together with proofs of the spec's
testable properties.

Bytes are modelled as `Nat` (real wire bytes are `< 256`); byte strings
as `List Nat`; Go's fallible functions return `Except`; Go maps
(`sync.Map`) are association lists with overwrite-on-store semantics.
-/

namespace Kephasnet

/-! ## Constants (package `knet`, constants file) -/

/-- Reserved command id for JSON-RPC 2.0 messages (`CmdJSONRPC = 0xFFFFFFFF`). -/
def CmdJSONRPC : Nat := 0xFFFFFFFF

/-- Reserved command id for JSON-RPC error envelopes (`CmdJSONRPCError = 0xFFFFFFFE`). -/
def CmdJSONRPCError : Nat := 0xFFFFFFFE

def ErrInvalidMessageFormat : String := "Invalid message format"
def ErrParseError : String := "Parse error"
def ErrInvalidRequest : String := "Invalid Request"
def ErrMethodNotFound : String := "Method not found"
def ErrInternalError : String := "Internal error"
def ErrConnectionClosed : String := "client connection is closed"
def ErrContextCancelled : String := "client context cancelled"

def JSONRPCParseError : Int := -32700
def JSONRPCInvalidRequest : Int := -32600
def JSONRPCMethodNotFound : Int := -32601
def JSONRPCInvalidParams : Int := -32602
def JSONRPCInternalError : Int := -32603

def JSONRPCVersion : String := "2.0"

/-- RFC 6455 close codes used by the server (gorilla/websocket constants). -/
def CloseNormalClosure : Nat := 1000
def CloseProtocolError : Nat := 1002
def ClosePolicyViolation : Nat := 1008

/-! ## Frame codec (package `internal/protocol`) -/

def headerSize : Nat := 4

def maxPayloadSize : Nat := 10 * 1024 * 1024

/-- Errors returned by the codec: `fmt.Errorf("payload size %d exceeds maximum %d bytes")`
and `errors.New("data too short")`. -/
inductive ProtocolError where
  | payloadTooLarge (size limit : Nat)
  | dataTooShort
deriving DecidableEq, Repr

/-- `binary.BigEndian.PutUint32`: the four big-endian bytes of a `uint32`. -/
def putUint32BE (v : Nat) : List Nat :=
  [v / 2 ^ 24 % 256, v / 2 ^ 16 % 256, v / 2 ^ 8 % 256, v % 256]

/-- `binary.BigEndian.Uint32` applied to the first four bytes. -/
def uint32FromBytes : List Nat → Nat
  | b0 :: b1 :: b2 :: b3 :: _ => b0 * 2 ^ 24 + b1 * 2 ^ 16 + b2 * 2 ^ 8 + b3
  | _ => 0

/-- `protocol.Encode`: commandID as first 4 bytes (big-endian) followed by the payload;
fails when the payload exceeds `maxPayloadSize`. -/
def Encode (commandID : Nat) (payload : List Nat) : Except ProtocolError (List Nat) :=
  if payload.length > maxPayloadSize then
    .error (.payloadTooLarge payload.length maxPayloadSize)
  else
    .ok (putUint32BE commandID ++ payload)

/-- `protocol.Decode`: first 4 bytes as big-endian commandID, rest as payload;
fails when shorter than the header or when the payload portion exceeds
`maxPayloadSize`. -/
def Decode (data : List Nat) : Except ProtocolError (Nat × List Nat) :=
  if data.length < headerSize then
    .error .dataTooShort
  else if data.length - headerSize > maxPayloadSize then
    .error (.payloadTooLarge (data.length - headerSize) maxPayloadSize)
  else
    .ok (uint32FromBytes (data.take headerSize), data.drop headerSize)

/-- Success test for `Except` results (Go's `err == nil`). -/
def isOkE {ε α : Type} : Except ε α → Bool
  | .ok _ => true
  | .error _ => false

/-! ### Codec helper lemmas -/

theorem length_putUint32BE (v : Nat) : (putUint32BE v).length = 4 := by
  simp [putUint32BE]

theorem uint32FromBytes_putUint32BE (v : Nat) (h : v < 2 ^ 32) :
    uint32FromBytes (putUint32BE v) = v := by
  simp only [putUint32BE, uint32FromBytes]
  omega

theorem Encode_ok (c : Nat) (p : List Nat) (hp : p.length ≤ maxPayloadSize) :
    Encode c p = .ok (putUint32BE c ++ p) := by
  simp [Encode, Nat.not_lt.mpr hp]

theorem Decode_cons4 (b0 b1 b2 b3 : Nat) (rest : List Nat)
    (h : rest.length ≤ maxPayloadSize) :
    Decode (b0 :: b1 :: b2 :: b3 :: rest) =
      .ok (uint32FromBytes [b0, b1, b2, b3], rest) := by
  have hlen : (b0 :: b1 :: b2 :: b3 :: rest).length = rest.length + 4 := by simp
  simp only [Decode, headerSize, hlen]
  rw [if_neg (by omega), if_neg (by omega)]
  simp [uint32FromBytes]

theorem Decode_isOk_iff (data : List Nat) :
    isOkE (Decode data) = true ↔
      4 ≤ data.length ∧ data.length - 4 ≤ maxPayloadSize := by
  simp only [Decode, headerSize]
  split_ifs with h1 h2
  · simp only [isOkE, Bool.false_eq_true, false_iff]
    omega
  · simp only [isOkE, Bool.false_eq_true, false_iff]
    omega
  · simp only [isOkE, true_iff]
    omega

theorem Decode_putUint32BE_append (c : Nat) (p : List Nat)
    (hc : c < 2 ^ 32) (hp : p.length ≤ maxPayloadSize) :
    Decode (putUint32BE c ++ p) = .ok (c, p) := by
  simp only [putUint32BE, List.cons_append, List.nil_append]
  rw [Decode_cons4 _ _ _ _ _ hp]
  rw [show uint32FromBytes [c / 2 ^ 24 % 256, c / 2 ^ 16 % 256, c / 2 ^ 8 % 256, c % 256] =
        uint32FromBytes (putUint32BE c) from rfl,
      uint32FromBytes_putUint32BE c hc]

/-! ## Claim theorems for the frame codec -/

/-- C1: for every commandID `c` (a `uint32`) and payload `p` with
`len(p) ≤ 10*1024*1024`, `Encode c p` succeeds and `Decode` of its output
returns exactly `(c, p)`. -/
theorem C1_encode_decode_roundtrip (c : Nat) (p : List Nat)
    (hc : c < 2 ^ 32) (hp : p.length ≤ maxPayloadSize) :
    Encode c p >>= Decode = Except.ok (c, p) := by
  rw [show Encode c p >>= Decode = (Encode c p).bind Decode from rfl,
      Encode_ok c p hp]
  simpa [Except.bind] using Decode_putUint32BE_append c p hc hp

/-- C1 witness: the round-trip at commandID `0x01020304`, payload `[5, 6]`. -/
theorem C1_encode_decode_roundtrip_witness :
    Encode 0x01020304 [5, 6] >>= Decode = Except.ok (0x01020304, [5, 6]) :=
  C1_encode_decode_roundtrip 0x01020304 [5, 6] (by decide) (by decide)

/-- C5: `Encode` fails (with a payload-too-large error) exactly when the payload
exceeds `10*1024*1024` bytes — succeeding at exactly 10 MiB and failing at
10 MiB + 1; on success the output is `4 + len(p)` bytes whose first four bytes
are the commandID big-endian (at `0x01020304` they are `[1, 2, 3, 4]`)
followed by the payload bytes unchanged. -/
theorem C5_encode_contract :
    (∀ c p, isOkE (Encode c p) = true ↔ p.length ≤ maxPayloadSize) ∧
    (∀ c p, p.length > maxPayloadSize →
      Encode c p = .error (.payloadTooLarge p.length maxPayloadSize)) ∧
    (∀ c p w, Encode c p = .ok w →
      w.length = 4 + p.length ∧ w.take 4 = putUint32BE c ∧ w.drop 4 = p) ∧
    (∀ p, p.length ≤ maxPayloadSize →
      Encode 0x01020304 p = .ok ([0x01, 0x02, 0x03, 0x04] ++ p)) ∧
    isOkE (Encode 0 (List.replicate maxPayloadSize 0)) = true ∧
    isOkE (Encode 0 (List.replicate (maxPayloadSize + 1) 0)) = false := by
  refine ⟨?_, ?_, ?_, ?_, ?_, ?_⟩
  · intro c p
    simp only [Encode]
    split_ifs with h1
    · simp only [isOkE, Bool.false_eq_true, false_iff]
      omega
    · simp only [isOkE, true_iff]
      omega
  · intro c p h
    simp [Encode, h]
  · intro c p w hw
    simp only [Encode] at hw
    split at hw
    · cases hw
    · cases hw
      refine ⟨by simp [length_putUint32BE], ?_, ?_⟩
      · rw [show (4 : Nat) = (putUint32BE c).length from (length_putUint32BE c).symm,
            List.take_left]
      · rw [show (4 : Nat) = (putUint32BE c).length from (length_putUint32BE c).symm,
            List.drop_left]
  · intro p hp
    rw [Encode_ok _ _ hp]
    rfl
  · have hp : (List.replicate maxPayloadSize (0 : Nat)).length ≤ maxPayloadSize := by
      rw [List.length_replicate]
    rw [Encode_ok _ _ hp]
    rfl
  · have hp : (List.replicate (maxPayloadSize + 1) (0 : Nat)).length > maxPayloadSize := by
      rw [List.length_replicate]
      omega
    unfold Encode
    rw [if_pos hp]
    rfl

/-- C5 witness: encoding commandID `0x01020304` with payload `[9]` yields the
big-endian header followed by the payload. -/
theorem C5_encode_contract_witness :
    Encode 0x01020304 [9] = .ok ([0x01, 0x02, 0x03, 0x04] ++ [9]) :=
  C5_encode_contract.2.2.2.1 [9] (by decide)

/-- C6: `Decode` fails exactly when the input is shorter than 4 bytes or the
payload portion exceeds 10 MiB: it fails on all inputs of length 0..3, succeeds
with an empty payload at exactly length 4, succeeds when the payload portion is
exactly 10 MiB, and fails at 10 MiB + 1. -/
theorem C6_decode_boundaries :
    (∀ data : List Nat, isOkE (Decode data) = true ↔
      4 ≤ data.length ∧ data.length - 4 ≤ maxPayloadSize) ∧
    (∀ data : List Nat, data.length ≤ 3 → Decode data = .error .dataTooShort) ∧
    (∀ b0 b1 b2 b3 : Nat,
      Decode [b0, b1, b2, b3] = .ok (uint32FromBytes [b0, b1, b2, b3], [])) ∧
    isOkE (Decode (List.replicate (4 + maxPayloadSize) 0)) = true ∧
    isOkE (Decode (List.replicate (4 + maxPayloadSize + 1) 0)) = false := by
  refine ⟨Decode_isOk_iff, ?_, ?_, ?_, ?_⟩
  · intro data h
    have : data.length < headerSize := by simp only [headerSize]; omega
    simp [Decode, this]
  · intro b0 b1 b2 b3
    simpa using Decode_cons4 b0 b1 b2 b3 [] (by simp)
  · rw [Decode_isOk_iff, List.length_replicate]
    omega
  · rw [Bool.eq_false_iff]
    intro htrue
    rw [Decode_isOk_iff, List.length_replicate] at htrue
    omega

/-- C6 witness: an input of length 3 is rejected as too short. -/
theorem C6_decode_boundaries_witness :
    Decode [0, 0, 0] = .error .dataTooShort :=
  C6_decode_boundaries.2.1 [0, 0, 0] (by decide)

/-! ## Association-list model of `sync.Map`

`Store` overwrites any prior entry for the key; `Load` retrieves it. -/

def storeAssoc {K V : Type} [DecidableEq K] (m : List (K × V)) (k : K) (v : V) :
    List (K × V) :=
  (k, v) :: m.filter (fun p => p.1 ≠ k)

def lookupAssoc {K V : Type} [DecidableEq K] (m : List (K × V)) (k : K) : Option V :=
  (m.find? (fun p => decide (p.1 = k))).map (fun p => p.2)

theorem lookupAssoc_storeAssoc {K V : Type} [DecidableEq K]
    (m : List (K × V)) (k : K) (v : V) :
    lookupAssoc (storeAssoc m k v) k = some v := by
  simp [lookupAssoc, storeAssoc, List.find?]

/-! ## Connection session close semantics (`websocket.Client.CloseWithCode`)

The session state tracks the fields of the Go `Client` that `CloseWithCode`
touches under its mutex: the `closed` flag, the lifecycle cancellation
(`c.cancel()`), the close-notification control frames written to the
transport (`conn.WriteControl(CloseMessage, ...)`), the closing of the
outbound queue (`close(c.sendCh)`), and the closing of the transport
(`c.conn.Close()`, whose error result is modelled as success). -/

structure ClientState where
  closed : Bool
  cancelled : Bool
  closeFrames : List (Nat × String)
  sendChClosed : Bool
  connClosed : Bool
deriving DecidableEq, Repr

/-- The state `NewClient` starts a session in. -/
def newClientState : ClientState :=
  { closed := false, cancelled := false, closeFrames := [],
    sendChClosed := false, connClosed := false }

/-- `Client.CloseWithCode`: if already closed, return nil without touching the
state; otherwise mark closed, cancel the lifecycle, write the close frame,
close the outbound queue and close the transport. -/
def CloseWithCode (c : ClientState) (code : Nat) (reason : String) :
    ClientState × Option String :=
  if c.closed then
    (c, none)
  else
    ({ closed := true, cancelled := true,
       closeFrames := c.closeFrames ++ [(code, reason)],
       sendChClosed := true, connClosed := true }, none)

/-- A sequence of `CloseWithCode` calls against one session. -/
def runCloses (s : ClientState) (calls : List (Nat × String)) : ClientState :=
  calls.foldl (fun st c => (CloseWithCode st c.1 c.2).1) s

theorem CloseWithCode_of_closed (s : ClientState) (code : Nat) (reason : String)
    (h : s.closed = true) : CloseWithCode s code reason = (s, none) := by
  simp [CloseWithCode, h]

theorem runCloses_of_closed (s : ClientState) (h : s.closed = true) :
    ∀ calls, runCloses s calls = s := by
  intro calls
  induction calls with
  | nil => rfl
  | cons c cs ih =>
    show runCloses (CloseWithCode s c.1 c.2).1 cs = s
    rw [CloseWithCode_of_closed s c.1 c.2 h]
    exact ih

/-- C7: session close is idempotent — after the first `CloseWithCode` the
session is marked closed, every later call is a no-op returning success, every
call returns success, the first close from a fresh session performs the whole
teardown exactly once, and no sequence of close calls ever writes a second
close-notification frame. -/
theorem C7_close_idempotent :
    (∀ (s : ClientState) (code : Nat) (reason : String) (code2 : Nat) (reason2 : String),
      CloseWithCode (CloseWithCode s code reason).1 code2 reason2 =
        ((CloseWithCode s code reason).1, none) ∧
      (CloseWithCode s code reason).1.closed = true ∧
      (CloseWithCode s code reason).2 = none) ∧
    (∀ (code : Nat) (reason : String),
      CloseWithCode newClientState code reason =
        ({ closed := true, cancelled := true, closeFrames := [(code, reason)],
           sendChClosed := true, connClosed := true }, none)) ∧
    (∀ calls, (runCloses newClientState calls).closeFrames.length ≤ 1) := by
  refine ⟨?_, ?_, ?_⟩
  · intro s code reason code2 reason2
    by_cases h : s.closed = true
    · rw [CloseWithCode_of_closed s code reason h]
      exact ⟨CloseWithCode_of_closed s code2 reason2 h, h, rfl⟩
    · have h' : s.closed = false := by
        cases hb : s.closed
        · rfl
        · exact absurd hb h
      simp [CloseWithCode, h']
  · intro code reason
    rfl
  · intro calls
    cases calls with
    | nil =>
      simp [runCloses, newClientState]
    | cons c cs =>
      show (runCloses (CloseWithCode newClientState c.1 c.2).1 cs).closeFrames.length ≤ 1
      rw [show (CloseWithCode newClientState c.1 c.2).1 =
            { closed := true, cancelled := true, closeFrames := [(c.1, c.2)],
              sendChClosed := true, connClosed := true } from rfl]
      rw [runCloses_of_closed _ rfl cs]
      simp

/-! ## Handler registration (`Server.RegisterHandler`, `Server.RegisterJSONRPCHandler`)

Both store into a `sync.Map` and return `nil` unconditionally; the `ctx`
parameter is unused by the Go code and omitted here. -/

def RegisterHandler {H : Type} (handlers : List (Nat × H))
    (commandID : Nat) (handler : H) : List (Nat × H) × Option String :=
  (storeAssoc handlers commandID handler, none)

def RegisterJSONRPCHandler {H : Type} (rpcHandlers : List (String × H))
    (method : String) (handler : H) : List (String × H) × Option String :=
  (storeAssoc rpcHandlers method handler, none)

/-- C9: handler registration never fails — for every table state, command id
(reserved ids included), method name and handler, both registration calls
return success and store the handler, overwriting any prior entry for the
same key. -/
theorem C9_registration_always_succeeds :
    ∀ (H : Type) (handlers : List (Nat × H)) (commandID : Nat) (handler : H)
      (rpcHandlers : List (String × H)) (method : String) (rpcHandler : H),
      (RegisterHandler handlers commandID handler).2 = none ∧
      lookupAssoc (RegisterHandler handlers commandID handler).1 commandID =
        some handler ∧
      (RegisterJSONRPCHandler rpcHandlers method rpcHandler).2 = none ∧
      lookupAssoc (RegisterJSONRPCHandler rpcHandlers method rpcHandler).1 method =
        some rpcHandler := by
  intro H handlers commandID handler rpcHandlers method rpcHandler
  exact ⟨rfl, lookupAssoc_storeAssoc handlers commandID handler, rfl,
    lookupAssoc_storeAssoc rpcHandlers method rpcHandler⟩

/-! ## Frame dispatch (`Server.handleProtocolMessage`) and the read loop
(`Server.handleClient`)

The dispatch outcome is reified: run the JSON-RPC bridge, run a registered
command handler, or silently drop the frame. The Go type assertion on the
stored handler cannot fail in the typed model. -/

inductive DispatchAction (H : Type) where
  | runJSONRPC (payload : List Nat)
  | runHandler (handler : H) (payload : List Nat)
  | drop
deriving Repr

def handleProtocolMessage {H : Type} (handlers : List (Nat × H))
    (commandID : Nat) (payload : List Nat) : DispatchAction H :=
  if commandID = CmdJSONRPC then
    .runJSONRPC payload
  else
    match lookupAssoc handlers commandID with
    | some handler => .runHandler handler payload
    | none => .drop

/-- One observable step of the `handleClient` read loop: close the session
(with a close code and reason) and exit, or dispatch the decoded frame and
keep reading. -/
inductive ClientAction where
  | closeSession (code : Nat) (reason : String)
  | dispatch (commandID : Nat) (payload : List Nat)
deriving DecidableEq, Repr

/-- The per-message body of `Server.handleClient`: the rate-limit check
(`client.CheckRateLimit`, whose token-bucket outcome is the Boolean input)
runs before the frame is decoded; on denial the session is closed with
`ClosePolicyViolation` and reason "Rate limit exceeded"; on decode failure it
is closed with `CloseProtocolError` and the invalid-message-format reason;
otherwise the frame is dispatched. -/
def readLoopStep (rateLimitAllowed : Bool) (data : List Nat) : ClientAction :=
  if !rateLimitAllowed then
    .closeSession ClosePolicyViolation "Rate limit exceeded"
  else
    match Decode data with
    | .error _ => .closeSession CloseProtocolError ErrInvalidMessageFormat
    | .ok (commandID, payload) => .dispatch commandID payload

/-- The read loop over a sequence of received messages, each paired with its
rate-limit admission outcome: a `closeSession` step terminates the loop. -/
def runReadLoop : List (Bool × List Nat) → List ClientAction
  | [] => []
  | (allowed, data) :: rest =>
    match readLoopStep allowed data with
    | .closeSession code reason => [.closeSession code reason]
    | .dispatch commandID payload => .dispatch commandID payload :: runReadLoop rest

/-- C4: when the rate limiter denies a message, the session is closed
immediately with the policy-violation code and reason "Rate limit exceeded",
without decoding or dispatching that frame, and the read loop exits so no
later frame is processed either. -/
theorem C4_rate_limit_denial_terminal :
    (∀ data, readLoopStep false data =
      .closeSession ClosePolicyViolation "Rate limit exceeded") ∧
    (∀ data rest, runReadLoop ((false, data) :: rest) =
      [ClientAction.closeSession ClosePolicyViolation "Rate limit exceeded"]) := by
  constructor
  · intro data
    rfl
  · intro data rest
    rfl

/-- C8: a frame whose command id is not the reserved RPC id and has no
registered handler is silently dropped — no handler runs and nothing is sent
back — while the read loop continues with the next frame after any
successfully decoded, admitted message. -/
theorem C8_unregistered_command_dropped :
    ∀ (H : Type) (handlers : List (Nat × H)) (commandID : Nat) (payload : List Nat),
      commandID ≠ CmdJSONRPC → lookupAssoc handlers commandID = none →
      handleProtocolMessage handlers commandID payload = .drop ∧
      (∀ data rest cid pl, Decode data = .ok (cid, pl) →
        runReadLoop ((true, data) :: rest) =
          ClientAction.dispatch cid pl :: runReadLoop rest) := by
  intro H handlers commandID payload hne hlook
  constructor
  · simp [handleProtocolMessage, hne, hlook]
  · intro data rest cid pl hdec
    show (match readLoopStep true data with
      | .closeSession code reason => [ClientAction.closeSession code reason]
      | .dispatch commandID payload =>
          ClientAction.dispatch commandID payload :: runReadLoop rest) = _
    simp [readLoopStep, hdec]

/-- C8 witness: command id 5 with an empty handler table is dropped. -/
theorem C8_unregistered_command_dropped_witness :
    handleProtocolMessage ([] : List (Nat × Unit)) 5 [1] = .drop :=
  (C8_unregistered_command_dropped Unit [] 5 [1] (by decide) rfl).1

/-- C10: a command handler registered under the reserved id `0xFFFFFFFF` is
unreachable — dispatch of a frame with that command id always takes the
JSON-RPC path, whatever the command-handler table holds, including when a
handler was explicitly stored under the reserved id. -/
theorem C10_reserved_id_handler_unreachable :
    ∀ (H : Type) (handlers : List (Nat × H)) (handler : H) (payload : List Nat),
      handleProtocolMessage handlers CmdJSONRPC payload = .runJSONRPC payload ∧
      handleProtocolMessage (storeAssoc handlers CmdJSONRPC handler)
        CmdJSONRPC payload = .runJSONRPC payload := by
  intro H handlers handler payload
  exact ⟨by simp [handleProtocolMessage], by simp [handleProtocolMessage]⟩

/-! ## JSON-RPC bridging (`Server.handleJSONRPCMessage` / `Server.sendJSONRPCError`)

JSON documents are modelled structurally. `json.Unmarshal` is an external
library call; its outcome on the frame payload is the `Option JSONRPCRequest`
input (`none` = parse failure). `json.Marshal` of a response envelope is
modelled as total, and `client.Send` on the originating session is modelled
by returning the message that is sent: its command id and envelope. -/

inductive JsonValue where
  | null
  | bool (b : Bool)
  | num (n : Int)
  | str (s : String)
  | arr (elems : List JsonValue)
  | obj (fields : List (String × JsonValue))

/-- `JSONRPCRequest` (Go struct): absent `params` is the nil map, absent `id`
is JSON null. -/
structure JSONRPCRequest where
  jsonrpc : String
  method : String
  params : List (String × JsonValue)
  id : JsonValue

structure JSONRPCError where
  code : Int
  message : String
  data : Option JsonValue

structure JSONRPCResponse where
  jsonrpc : String
  result : Option JsonValue
  error : Option JSONRPCError
  id : JsonValue

/-- A registered JSON-RPC handler: params to result-or-error (the Go error is
carried as its message string). -/
def RPCHandler : Type := List (String × JsonValue) → Except String JsonValue

/-- A message sent back on the originating session: command id and envelope. -/
structure SentMessage where
  commandID : Nat
  response : JSONRPCResponse

/-- `Server.sendJSONRPCError`: build an error envelope and send it under the
reserved JSON-RPC command id. -/
def sendJSONRPCError (id : JsonValue) (code : Int) (message : String)
    (data : Option JsonValue) : SentMessage :=
  { commandID := CmdJSONRPC,
    response :=
      { jsonrpc := JSONRPCVersion, result := none,
        error := some { code := code, message := message, data := data },
        id := id } }

/-- `Server.handleJSONRPCMessage`: parse failure sends `-32700` with id null;
a version other than "2.0" sends `-32600` echoing the request id; an
unregistered method sends `-32601`; a handler error sends `-32603` with the
error's message; success sends a result envelope echoing the request id. -/
def handleJSONRPCMessage (rpcHandlers : List (String × RPCHandler))
    (parsed : Option JSONRPCRequest) : SentMessage :=
  match parsed with
  | none => sendJSONRPCError JsonValue.null JSONRPCParseError ErrParseError none
  | some req =>
    if req.jsonrpc ≠ JSONRPCVersion then
      sendJSONRPCError req.id JSONRPCInvalidRequest ErrInvalidRequest none
    else
      match lookupAssoc rpcHandlers req.method with
      | none => sendJSONRPCError req.id JSONRPCMethodNotFound ErrMethodNotFound none
      | some handler =>
        match handler req.params with
        | .error msg => sendJSONRPCError req.id JSONRPCInternalError msg none
        | .ok result =>
          { commandID := CmdJSONRPC,
            response :=
              { jsonrpc := JSONRPCVersion, result := some result,
                error := none, id := req.id } }

/-- The observable shape of an error reply: sent under the reserved command
id, version "2.0", no result, the given error code and message, echoing the
given id. -/
def isErrorEnvelope (m : SentMessage) (id : JsonValue) (code : Int)
    (message : String) : Prop :=
  m.commandID = CmdJSONRPC ∧
  m.response.jsonrpc = JSONRPCVersion ∧
  m.response.result = none ∧
  m.response.error = some { code := code, message := message, data := none } ∧
  m.response.id = id

/-- C3: for every frame on the reserved RPC command id: a payload that is not
valid JSON yields an error envelope with code `-32700` and id null; a version
other than "2.0" yields `-32600` echoing the request id; an unregistered
method yields `-32601`; a handler error yields `-32603` carrying the error's
message; otherwise a result envelope echoes the request id — and every
response, success or error, is sent to the originating session under the same
reserved command id `0xFFFFFFFF`. -/
theorem C3_jsonrpc_protocol :
    ∀ (tbl : List (String × RPCHandler)) (parsed : Option JSONRPCRequest),
      (handleJSONRPCMessage tbl parsed).commandID = CmdJSONRPC ∧
      (parsed = none →
        isErrorEnvelope (handleJSONRPCMessage tbl parsed) JsonValue.null
          JSONRPCParseError ErrParseError) ∧
      (∀ req, parsed = some req → req.jsonrpc ≠ JSONRPCVersion →
        isErrorEnvelope (handleJSONRPCMessage tbl parsed) req.id
          JSONRPCInvalidRequest ErrInvalidRequest) ∧
      (∀ req, parsed = some req → req.jsonrpc = JSONRPCVersion →
        lookupAssoc tbl req.method = none →
        isErrorEnvelope (handleJSONRPCMessage tbl parsed) req.id
          JSONRPCMethodNotFound ErrMethodNotFound) ∧
      (∀ req handler msg, parsed = some req → req.jsonrpc = JSONRPCVersion →
        lookupAssoc tbl req.method = some handler →
        handler req.params = .error msg →
        isErrorEnvelope (handleJSONRPCMessage tbl parsed) req.id
          JSONRPCInternalError msg) ∧
      (∀ req handler result, parsed = some req → req.jsonrpc = JSONRPCVersion →
        lookupAssoc tbl req.method = some handler →
        handler req.params = .ok result →
        handleJSONRPCMessage tbl parsed =
          { commandID := CmdJSONRPC,
            response :=
              { jsonrpc := JSONRPCVersion, result := some result,
                error := none, id := req.id } }) := by
  intro tbl parsed
  refine ⟨?_, ?_, ?_, ?_, ?_, ?_⟩
  · unfold handleJSONRPCMessage
    split
    · rfl
    · split
      · rfl
      · split
        · rfl
        · split
          · rfl
          · rfl
  · intro h
    subst h
    exact ⟨rfl, rfl, rfl, rfl, rfl⟩
  · intro req h hv
    subst h
    simp only [handleJSONRPCMessage, if_pos hv]
    exact ⟨rfl, rfl, rfl, rfl, rfl⟩
  · intro req h hv hlook
    subst h
    simp only [handleJSONRPCMessage, hv, ne_eq, not_true_eq_false, if_false, hlook]
    exact ⟨rfl, rfl, rfl, rfl, rfl⟩
  · intro req handler msg h hv hlook hres
    subst h
    simp only [handleJSONRPCMessage, hv, ne_eq, not_true_eq_false, if_false, hlook, hres]
    exact ⟨rfl, rfl, rfl, rfl, rfl⟩
  · intro req handler result h hv hlook hres
    subst h
    simp only [handleJSONRPCMessage, hv, ne_eq, not_true_eq_false, if_false, hlook, hres]

/-- C3 witness: with an empty handler table, a payload that fails to parse is
answered by a `-32700` parse-error envelope with id null. -/
theorem C3_jsonrpc_protocol_witness :
    isErrorEnvelope (handleJSONRPCMessage [] none) JsonValue.null
      JSONRPCParseError ErrParseError :=
  (C3_jsonrpc_protocol [] none).2.1 rfl

end Kephasnet
